import Mathlib

/-!
Shallow embedding of `mysql_api/mysql_database.py` (class `MySQLDatabase`).

A model class is a table schema (name plus typed columns, primary key `id`).
A row is an association list from column name to scalar value.  The backend
(SQLAlchemy over MySQL) is represented by a `Table` state (rows plus the
table's auto-increment counter) and a failure oracle `fail : Option
DatabaseErr`: `some e` means the backend raises the DatabaseError `e` at the
point where the operation first executes SQL, `none` means the backend
succeeds.  Each facade method becomes a function from its arguments, the
table state and the oracle to an `OpResult`, recording the Python-level
outcome (`Except PyError`), the resulting table state, whether a Session was
opened, and whether `session.rollback()` was called.
-/

set_option autoImplicit false

namespace MysqlApi

/-- A calendar date, as produced by the `.date()` method of a datetime. -/
structure Date where
  year : Nat
  month : Nat
  day : Nat
deriving DecidableEq, Repr

/-- A Python `datetime`: a calendar date plus a time-of-day component
(seconds after midnight; the granularity is irrelevant to the facade). -/
structure DateTime where
  date : Date
  secondsOfDay : Nat
deriving DecidableEq, Repr

/-- Scalar column values stored in rows and used in filters. -/
inductive Value where
  | vInt (n : Int)
  | vStr (s : String)
  | vDateTime (dt : DateTime)
deriving DecidableEq, Repr

/-- Declared column types of a model class. -/
inductive ColType where
  | tInt
  | tStr
  | tDateTime
deriving DecidableEq, Repr

/-- A SQLAlchemy `DatabaseError` raised by the backend. -/
structure DatabaseErr where
  msg : String
deriving DecidableEq, Repr

/-- Python-level exceptions observable from the facade.

The four `mysqlAPI...` constructors embed the classes `MySQLAPIAddError`,
`MySQLAPIQueryError`, `MySQLAPIDeleteError`, `MySQLAPIUpdateError` of
`mysql_api.exception`.  Modelled from the spec: the module
`mysql_api/exception.py` is not part of the sources at hand; per the spec's
error taxonomy (section 7) they are four distinct error kinds, each wrapping
a message and the underlying backend cause.  `valueError` and `typeError`
embed Python's built-in `ValueError` and `TypeError`. -/
inductive PyError where
  | valueError (msg : String)
  | typeError (msg : String)
  | mysqlAPIAddError (msg : String) (cause : DatabaseErr)
  | mysqlAPIQueryError (msg : String) (cause : DatabaseErr)
  | mysqlAPIDeleteError (msg : String) (cause : DatabaseErr)
  | mysqlAPIUpdateError (msg : String) (cause : DatabaseErr)
deriving DecidableEq, Repr

deriving instance DecidableEq for Except

/-- A decimal digit's value, for the textual formats the facade parses. -/
def charDigit? (c : Char) : Option Nat :=
  if c.isDigit then some (c.toNat - 48) else none

/-- Accumulate decimal digits; fails on any non-digit. -/
def digitsToNatAux : List Char → Nat → Option Nat
  | [], acc => some acc
  | c :: cs, acc =>
    match charDigit? c with
    | some d => digitsToNatAux cs (acc * 10 + d)
    | none => none

/-- A nonempty all-digit character run as a number. -/
def decToNat? (cs : List Char) : Option Nat :=
  match cs with
  | [] => none
  | _ => digitsToNatAux cs 0

/-- Python `int(s)` on a string: an optional sign followed by decimal
digits; anything else raises `ValueError`. -/
def pyIntOfString (s : String) : Option Int :=
  match s.data with
  | '-' :: rest => (decToNat? rest).map fun n => -(n : Int)
  | '+' :: rest => (decToNat? rest).map fun n => (n : Int)
  | cs => (decToNat? cs).map fun n => (n : Int)

/-- Split a character list on the dash separator (the semantics of
splitting a string on a one-character separator). -/
def splitOnDash : List Char → List (List Char)
  | [] => [[]]
  | c :: rest =>
    let r := splitOnDash rest
    if c = '-' then [] :: r
    else
      match r with
      | [] => [[c]]
      | g :: gs => (c :: g) :: gs

/-- A model class: table name and declared columns (`id` is the integer
primary key, assigned from the auto-increment counter on insert). -/
structure Model where
  name : String
  columns : List (String × ColType)
deriving DecidableEq, Repr

/-- One row, as a mapping from column name to value. -/
abbrev Record := List (String × Value)

/-- Backend state of one model's table: its rows (in backend-default order)
and its auto-increment counter. -/
structure Table where
  rows : List Record
  autoInc : Int
deriving DecidableEq, Repr

/-- Observable outcome of one facade call. -/
structure OpResult (α : Type) where
  result : Except PyError α
  table : Table
  sessionOpened : Bool
  rolledBack : Bool
deriving Repr, DecidableEq

/-- `model_cls(**data)` succeeds iff every key of `data` is a declared
column; an unknown keyword argument raises `TypeError`. -/
def validInstance (m : Model) (data : Record) : Bool :=
  data.all fun kv => (m.columns.lookup kv.1).isSome

/-- `filter_by(**filters)`: exact-match conjunction of all filters. -/
def matchesFilters (filters : Record) (r : Record) : Bool :=
  filters.all fun kv => decide (r.lookup kv.1 = some kv.2)

/-- Assign the auto-increment id to an inserted row that does not carry one. -/
def withId (autoInc : Int) (data : Record) : Record :=
  if (data.lookup "id").isSome then data else ("id", Value.vInt autoInc) :: data

/-- Assign ids to a batch of inserted rows, advancing the counter. -/
def withIds (autoInc : Int) : List Record → List Record × Int
  | [] => ([], autoInc)
  | d :: ds =>
    if (d.lookup "id").isSome then
      let (rest, a) := withIds autoInc ds
      (d :: rest, a)
    else
      let (rest, a) := withIds (autoInc + 1) ds
      (withId autoInc d :: rest, a)

/-- `MySQLDatabase.add_data`: construct `model_cls(**data)` (a `TypeError`
for an unknown column propagates uncaught), `session.add`, `session.commit`;
on `DatabaseError` roll back and raise `MySQLAPIAddError` from the cause. -/
def add_data (m : Model) (data : Record) (t : Table) (fail : Option DatabaseErr) :
    OpResult Unit :=
  if validInstance m data then
    match fail with
    | some e =>
      { result := .error (.mysqlAPIAddError ("Failed to add data to " ++ m.name) e)
        table := t, sessionOpened := true, rolledBack := true }
    | none =>
      { result := .ok ()
        table := { rows := t.rows ++ [withId t.autoInc data], autoInc := t.autoInc + 1 }
        sessionOpened := true, rolledBack := false }
  else
    { result := .error (.typeError ("invalid keyword argument for " ++ m.name))
      table := t, sessionOpened := true, rolledBack := false }

/-- `MySQLDatabase.add_data_multiple`: construct every instance (the first
unknown column raises `TypeError`, uncaught), `session.add_all`, commit; on
`DatabaseError` roll back the whole batch and raise `MySQLAPIAddError`. -/
def add_data_multiple (m : Model) (data : List Record) (t : Table)
    (fail : Option DatabaseErr) : OpResult Unit :=
  if data.all (validInstance m) then
    match fail with
    | some e =>
      { result := .error (.mysqlAPIAddError ("Failed to add data to " ++ m.name) e)
        table := t, sessionOpened := true, rolledBack := true }
    | none =>
      let (rows, a) := withIds t.autoInc data
      { result := .ok ()
        table := { rows := t.rows ++ rows, autoInc := a }
        sessionOpened := true, rolledBack := false }
  else
    { result := .error (.typeError ("invalid keyword argument for " ++ m.name))
      table := t, sessionOpened := true, rolledBack := false }

/-- `UPDATE ... SET` applied to one row: override the listed columns. -/
def applyUpdate (updateValues : Record) (r : Record) : Record :=
  r.map fun kv =>
    match updateValues.lookup kv.1 with
    | some v => (kv.1, v)
    | none => kv

/-- `MySQLDatabase.update_data`: `query.filter_by(key=key_value)` (the Query
object is always truthy, so the walrus `if` always takes the update branch),
`instances.update(update_values)`, commit; on `DatabaseError` roll back and
raise `MySQLAPIAddError` (sic: the source raises the add error here). -/
def update_data (m : Model) (key : String) (keyValue : Value)
    (updateValues : Record) (t : Table) (fail : Option DatabaseErr) : OpResult Unit :=
  match fail with
  | some e =>
    { result := .error (.mysqlAPIAddError ("Failed to add data to " ++ m.name) e)
      table := t, sessionOpened := true, rolledBack := true }
  | none =>
    { result := .ok ()
      table := { t with rows := t.rows.map (fun r =>
          if decide (r.lookup key = some keyValue) then applyUpdate updateValues r else r) }
      sessionOpened := true, rolledBack := false }

/-- `MySQLDatabase.update_column_values`: unconditional
`query.update(column_name=new_value)` over the whole table, commit; on
`DatabaseError` roll back and raise `MySQLAPIUpdateError`. -/
def update_column_values (m : Model) (columnName : String) (newValue : Value)
    (t : Table) (fail : Option DatabaseErr) : OpResult Unit :=
  match fail with
  | some e =>
    { result := .error
        (.mysqlAPIUpdateError
          ("Failed to update column " ++ columnName ++ " in " ++ m.name) e)
      table := t, sessionOpened := true, rolledBack := true }
  | none =>
    { result := .ok ()
      table := { t with rows := t.rows.map (applyUpdate [(columnName, newValue)]) }
      sessionOpened := true, rolledBack := false }

/-- `MySQLDatabase.query_data_all`: `filter_by(**filters).all()`; on
`DatabaseError` raise `MySQLAPIQueryError` without rollback. -/
def query_data_all (m : Model) (filters : Record) (t : Table)
    (fail : Option DatabaseErr) : OpResult (List Record) :=
  match fail with
  | some e =>
    { result := .error (.mysqlAPIQueryError ("Failed to query data for " ++ m.name) e)
      table := t, sessionOpened := true, rolledBack := false }
  | none =>
    { result := .ok (t.rows.filter (matchesFilters filters))
      table := t, sessionOpened := true, rolledBack := false }

/-- `MySQLDatabase.query_data_by_values`: when both `field` and `values` are
not `None`, add `field.in_(values)` (an empty list yields an `IN ()` clause
matching nothing); then `filter_by(**filters)` when `filters` is nonempty. -/
def query_data_by_values (m : Model) (field : Option String)
    (values : Option (List Value)) (filters : Record) (t : Table)
    (fail : Option DatabaseErr) : OpResult (List Record) :=
  match fail with
  | some e =>
    { result := .error (.mysqlAPIQueryError ("Failed to query data for " ++ m.name) e)
      table := t, sessionOpened := true, rolledBack := false }
  | none =>
    let afterMembership :=
      match field, values with
      | some f, some vs => t.rows.filter fun r => vs.any fun v => decide (r.lookup f = some v)
      | _, _ => t.rows
    let final :=
      if filters.isEmpty then afterMembership
      else afterMembership.filter (matchesFilters filters)
    { result := .ok final, table := t, sessionOpened := true, rolledBack := false }

/-- `MySQLDatabase.query_data_one`: `filter_by(**filters).first()` — the
first matching row, or `None` when nothing matches. -/
def query_data_one (m : Model) (filters : Record) (t : Table)
    (fail : Option DatabaseErr) : OpResult (Option Record) :=
  match fail with
  | some e =>
    { result := .error (.mysqlAPIQueryError ("Failed to query data for " ++ m.name) e)
      table := t, sessionOpened := true, rolledBack := false }
  | none =>
    { result := .ok (t.rows.filter (matchesFilters filters)).head?
      table := t, sessionOpened := true, rolledBack := false }

/-- `MySQLDatabase.query_data_page`: `offset_value = (page - 1) * page_size`,
then `filter_by(**filters).limit(page_size).offset(offset_value).all()` —
the slice of the filtered rows starting at the offset, of at most
`page_size` rows.  Pages are 1-indexed positive (`Nat` here; the spec leaves
non-positive pages undefined). -/
def query_data_page (m : Model) (page pageSize : Nat) (filters : Record)
    (t : Table) (fail : Option DatabaseErr) : OpResult (List Record) :=
  match fail with
  | some e =>
    { result := .error (.mysqlAPIQueryError ("Failed to query data for " ++ m.name) e)
      table := t, sessionOpened := true, rolledBack := false }
  | none =>
    let offsetValue := (page - 1) * pageSize
    { result := .ok (((t.rows.filter (matchesFilters filters)).drop offsetValue).take pageSize)
      table := t, sessionOpened := true, rolledBack := false }

/-- `MySQLDatabase.delete_all_data`: `query.delete()` every row, then
`ALTER TABLE ... AUTO_INCREMENT = 1`, then commit; on `DatabaseError` roll
back and raise `MySQLAPIDeleteError`. -/
def delete_all_data (m : Model) (t : Table) (fail : Option DatabaseErr) :
    OpResult Unit :=
  match fail with
  | some e =>
    { result := .error (.mysqlAPIDeleteError ("Failed to delete data from " ++ m.name) e)
      table := t, sessionOpened := true, rolledBack := true }
  | none =>
    { result := .ok (), table := { rows := [], autoInc := 1 }
      sessionOpened := true, rolledBack := false }

/-- Python `int(record_id)` on the `Union[int, str]` argument: an `int`
passes through, a `str` must be a decimal integer literal (else
`ValueError`), a datetime is not an accepted argument type (`TypeError`).
All of this happens after the Session is opened, inside the `try`, whose
`except` clause only catches `DatabaseError`. -/
def coerceId (v : Value) : Except PyError Int :=
  match v with
  | .vInt n => .ok n
  | .vStr s =>
    match pyIntOfString s with
    | some n => .ok n
    | none => .error (.valueError ("invalid literal for int with base 10: " ++ s))
  | .vDateTime _ => .error (.typeError "int argument must be a string or a number")

/-- Remove the first element satisfying the predicate. -/
def removeFirst {α : Type} (p : α → Bool) : List α → List α
  | [] => []
  | x :: xs => if p x then xs else x :: removeFirst p xs

/-- `MySQLDatabase.delete_data_by_id`: inside the session,
`filter_by(id=int(record_id)).first()` (the `int` coercion error propagates
uncaught), then delete-and-commit only when an instance was found; on
`DatabaseError` roll back and raise `MySQLAPIDeleteError`. -/
def delete_data_by_id (m : Model) (recordId : Value) (t : Table)
    (fail : Option DatabaseErr) : OpResult Unit :=
  match coerceId recordId with
  | .error e =>
    { result := .error e, table := t, sessionOpened := true, rolledBack := false }
  | .ok n =>
    match fail with
    | some e =>
      { result := .error (.mysqlAPIDeleteError ("Failed to delete data by id from " ++ m.name) e)
        table := t, sessionOpened := true, rolledBack := true }
    | none =>
      let p : Record → Bool := fun r => decide (r.lookup "id" = some (Value.vInt n))
      match t.rows.find? p with
      | some _ =>
        { result := .ok (), table := { t with rows := removeFirst p t.rows }
          sessionOpened := true, rolledBack := false }
      | none =>
        { result := .ok (), table := t, sessionOpened := true, rolledBack := false }

/-- `datetime.strptime(value, "%Y-%m-%d")`, restricted to what it accepts:
year, month and day as decimal fields separated by dashes, month in 1..12,
day in 1..31.  Returns `none` exactly when strptime raises `ValueError`. -/
def parseDateYMD (s : String) : Option Date :=
  match splitOnDash s.data with
  | [y, mo, d] =>
    match decToNat? y, decToNat? mo, decToNat? d with
    | some yn, some mn, some dn =>
      if 1 ≤ mn ∧ mn ≤ 12 ∧ 1 ≤ dn ∧ dn ≤ 31 then some ⟨yn, mn, dn⟩ else none
    | _, _, _ => none
  | _ => none

/-- One compiled filter of `query_data_with_date`: either the calendar-date
comparison `func.date(col) == value.date()` or the plain `col == value`. -/
inductive DFilter where
  | dateEq (name : String) (d : Date)
  | exact (name : String) (v : Value)
deriving DecidableEq, Repr

/-- The filter-building loop of `query_data_with_date`: a filter named
`created_at` is parsed with `strptime(value, "%Y-%m-%d")` — `strptime`
raises `TypeError` on a non-string and `ValueError` on a parse failure, and
neither is caught (`except` only covers `DatabaseError`); every other filter
becomes a plain equality. -/
def compileDateFilters : Record → Except PyError (List DFilter)
  | [] => .ok []
  | (name, v) :: rest =>
    if name = "created_at" then
      match v with
      | .vStr s =>
        match parseDateYMD s with
        | some d => (compileDateFilters rest).map fun fs => DFilter.dateEq name d :: fs
        | none =>
          .error (.valueError ("time data " ++ s ++ " does not match the format"))
      | _ => .error (.typeError "strptime argument 1 must be str")
    else
      (compileDateFilters rest).map fun fs => DFilter.exact name v :: fs

/-- Evaluate one compiled filter on a row. -/
def matchesDFilter (r : Record) : DFilter → Bool
  | .dateEq name d =>
    match r.lookup name with
    | some (.vDateTime dt) => decide (dt.date = d)
    | _ => false
  | .exact name v => decide (r.lookup name = some v)

/-- `MySQLDatabase.query_data_with_date`: build the filters (date parsing
happens here, before any SQL runs), then `.all()`; on `DatabaseError` raise
`MySQLAPIQueryError` without rollback. -/
def query_data_with_date (m : Model) (filters : Record) (t : Table)
    (fail : Option DatabaseErr) : OpResult (List Record) :=
  match compileDateFilters filters with
  | .error e =>
    { result := .error e, table := t, sessionOpened := true, rolledBack := false }
  | .ok fs =>
    match fail with
    | some e =>
      { result := .error (.mysqlAPIQueryError ("Failed to query data for " ++ m.name) e)
        table := t, sessionOpened := true, rolledBack := false }
    | none =>
      { result := .ok (t.rows.filter fun r => fs.all (matchesDFilter r))
        table := t, sessionOpened := true, rolledBack := false }

/-! ### Observation helpers and concrete fixtures -/

/-- The error raised by a call, when there is one. -/
def raisedError {α : Type} (r : OpResult α) : Option PyError :=
  match r.result with
  | .error e => some e
  | .ok _ => none

/-- Whether an error belongs to the facade's typed taxonomy. -/
def isFacadeError : PyError → Bool
  | .mysqlAPIAddError _ _ => true
  | .mysqlAPIQueryError _ _ => true
  | .mysqlAPIDeleteError _ _ => true
  | .mysqlAPIUpdateError _ _ => true
  | _ => false

/-- Whether an error is a `MySQLAPIAddError`. -/
def isAddError : PyError → Bool
  | .mysqlAPIAddError _ _ => true
  | _ => false

/-- Whether an error is a `MySQLAPIUpdateError`. -/
def isUpdateError : PyError → Bool
  | .mysqlAPIUpdateError _ _ => true
  | _ => false

/-- Whether an error is a `MySQLAPIQueryError`. -/
def isQueryError : PyError → Bool
  | .mysqlAPIQueryError _ _ => true
  | _ => false

/-- Whether an error is a `MySQLAPIDeleteError`. -/
def isDeleteError : PyError → Bool
  | .mysqlAPIDeleteError _ _ => true
  | _ => false

/-- Whether a call raised an error satisfying the classifier. -/
def raised {α : Type} (p : PyError → Bool) (r : OpResult α) : Bool :=
  match r.result with
  | .error e => p e
  | .ok _ => false

/-- The row list returned by a successful read (empty on error). -/
def okRows (r : OpResult (List Record)) : List Record :=
  match r.result with
  | .ok l => l
  | .error _ => []

/-- A small concrete model used by witnesses and counterexamples. -/
def userModel : Model :=
  { name := "User"
    columns := [("id", ColType.tInt), ("status", ColType.tStr), ("created_at", ColType.tDateTime)] }

/-- A concrete backend failure. -/
def bErr : DatabaseErr := { msg := "deadlock detected" }

/-- A concrete row of `userModel`. -/
def row1 : Record := [("id", Value.vInt 1), ("status", Value.vStr "x")]

/-- A one-row concrete table of `userModel`. -/
def tbl1 : Table := { rows := [row1], autoInc := 2 }

/-- A 25-row concrete table, ids 1 to 25 in backend-default order. -/
def tbl25 : Table :=
  { rows := (List.range 25).map (fun i => [("id", Value.vInt (i + 1))]), autoInc := 26 }

/-- Rows 11 to 20 of `tbl25`, the expected second page of size 10. -/
def rows11to20 : List Record :=
  (List.range 10).map (fun i => [("id", Value.vInt (i + 11))])

/-- A model with a date-typed column that is not named `created_at`. -/
def eventModel : Model :=
  { name := "Event", columns := [("id", ColType.tInt), ("event_date", ColType.tDateTime)] }

/-- A row of `eventModel` whose `event_date` falls on 2024-01-15, at 10:00. -/
def eventRow : Record :=
  [("id", Value.vInt 1),
   ("event_date", Value.vDateTime { date := { year := 2024, month := 1, day := 15 }, secondsOfDay := 36000 })]

/-- A one-row concrete table of `eventModel`. -/
def eventTbl : Table := { rows := [eventRow], autoInc := 2 }

/-- A row of `userModel` whose `created_at` falls on 2024-01-15, at 10:20:30. -/
def catRow : Record :=
  [("id", Value.vInt 1), ("status", Value.vStr "x"),
   ("created_at", Value.vDateTime { date := { year := 2024, month := 1, day := 15 }, secondsOfDay := 37230 })]

/-- A one-row concrete table holding `catRow`. -/
def catTbl : Table := { rows := [catRow], autoInc := 2 }

/-! ### Helper lemmas -/

/-- An empty filter mapping matches every row, so filtering by it is the
identity. -/
theorem filter_matchesFilters_nil (l : List Record) : l.filter (matchesFilters []) = l := by
  induction l with
  | nil => rfl
  | cons x xs ih => simp [matchesFilters, ih]

/-! ### Claim theorems -/

/-- C1 counterexample: with a backend failure injected into `update_data`
(the facade's update-by-key operation), the typed error that surfaces is the
add error, not the update error the taxonomy assigns to that operation, so
the claim as stated fails at this input. -/
theorem c1_counterexample :
    raised isUpdateError (update_data userModel "status" (Value.vStr "x")
      [("status", Value.vStr "y")] tbl1 (some bErr)) = false
    ∧ raised isAddError (update_data userModel "status" (Value.vStr "x")
      [("status", Value.vStr "y")] tbl1 (some bErr)) = true := by
  decide

/-- C1 (amended): for every mutating operation, when the backend raises a
DatabaseError the facade rolls the session back (leaving the table
unchanged) and raises a typed facade error with the backend exception as its
cause — never swallowing the failure — but the typed error is the add error
for `update_data`, not the update error. -/
theorem c1_rollback_and_cause
    (m : Model) (data : Record) (items : List Record) (key col : String)
    (kv nv : Value) (upd : Record) (rid : Value) (n : Int) (t : Table) (e : DatabaseErr)
    (hdata : validInstance m data = true)
    (hitems : items.all (validInstance m) = true)
    (hrid : coerceId rid = .ok n) :
    add_data m data t (some e) =
      { result := .error (.mysqlAPIAddError ("Failed to add data to " ++ m.name) e)
        table := t, sessionOpened := true, rolledBack := true }
    ∧ add_data_multiple m items t (some e) =
      { result := .error (.mysqlAPIAddError ("Failed to add data to " ++ m.name) e)
        table := t, sessionOpened := true, rolledBack := true }
    ∧ update_data m key kv upd t (some e) =
      { result := .error (.mysqlAPIAddError ("Failed to add data to " ++ m.name) e)
        table := t, sessionOpened := true, rolledBack := true }
    ∧ update_column_values m col nv t (some e) =
      { result := .error
          (.mysqlAPIUpdateError ("Failed to update column " ++ col ++ " in " ++ m.name) e)
        table := t, sessionOpened := true, rolledBack := true }
    ∧ delete_all_data m t (some e) =
      { result := .error (.mysqlAPIDeleteError ("Failed to delete data from " ++ m.name) e)
        table := t, sessionOpened := true, rolledBack := true }
    ∧ delete_data_by_id m rid t (some e) =
      { result := .error
          (.mysqlAPIDeleteError ("Failed to delete data by id from " ++ m.name) e)
        table := t, sessionOpened := true, rolledBack := true } := by
  refine ⟨?_, ?_, ?_, ?_, ?_, ?_⟩
  · simp [add_data, hdata]
  · simp [add_data_multiple, hitems]
  · simp [update_data]
  · simp [update_column_values]
  · simp [delete_all_data]
  · simp [delete_data_by_id, hrid]

/-- C1 witness: the amended rollback-and-cause theorem applied at a concrete
model, table and backend failure. -/
theorem c1_witness :
    validInstance userModel [("status", Value.vStr "new")] = true
    ∧ [[("status", Value.vStr "a")], [("status", Value.vStr "b")]].all (validInstance userModel) = true
    ∧ coerceId (Value.vInt 1) = .ok 1
    ∧ update_data userModel "status" (Value.vStr "x") [("status", Value.vStr "y")] tbl1 (some bErr) =
      { result := .error (.mysqlAPIAddError ("Failed to add data to " ++ userModel.name) bErr)
        table := tbl1, sessionOpened := true, rolledBack := true } :=
  ⟨by decide, by decide, by decide,
    (c1_rollback_and_cause userModel [("status", Value.vStr "new")]
      [[("status", Value.vStr "a")], [("status", Value.vStr "b")]] "status" "status"
      (Value.vStr "x") (Value.vStr "z") [("status", Value.vStr "y")] (Value.vInt 1) 1 tbl1 bErr
      (by decide) (by decide) (by decide)).2.2.1⟩

/-- C2: the code's behavior at the failing input — `update_data` with a
backend DatabaseError rolls back but raises `MySQLAPIAddError` (with the add
message), where both the spec taxonomy and the sibling `update_column_values`
raise `MySQLAPIUpdateError`; the update-specific error is never produced by
`update_data`. -/
theorem c2_code_behavior :
    update_data userModel "id" (Value.vInt 1) [("status", Value.vStr "closed")] tbl1 (some bErr)
      = { result := .error (.mysqlAPIAddError "Failed to add data to User" bErr)
          table := tbl1, sessionOpened := true, rolledBack := true }
    ∧ raised isUpdateError (update_data userModel "id" (Value.vInt 1)
        [("status", Value.vStr "closed")] tbl1 (some bErr)) = false := by
  decide

/-- C3 counterexample: a malformed date filter makes `query_data_with_date`
raise the bare ValueError from date parsing, not a `MySQLAPIQueryError`, so
the claim as stated fails at this input. -/
theorem c3_counterexample :
    (query_data_with_date userModel [("created_at", Value.vStr "not-a-date")] tbl1 none).result
      = .error (.valueError "time data not-a-date does not match the format")
    ∧ raised isQueryError (query_data_with_date userModel
        [("created_at", Value.vStr "not-a-date")] tbl1 none) = false := by
  decide

/-- C3 (amended): when the date-typed filter value fails to parse from the
YYYY-MM-DD format, `query_data_with_date` raises the parse ValueError
unwrapped — the except clause only catches DatabaseError — so the failure is
an unhandled crash of another exception type, not a `MySQLAPIQueryError`. -/
theorem c3_parse_failure_uncaught (m : Model) (s : String) (t : Table)
    (fail : Option DatabaseErr) (h : parseDateYMD s = none) :
    (query_data_with_date m [("created_at", Value.vStr s)] t fail).result
      = .error (.valueError ("time data " ++ s ++ " does not match the format"))
    ∧ raised isQueryError (query_data_with_date m [("created_at", Value.vStr s)] t fail)
      = false := by
  simp [query_data_with_date, compileDateFilters, h, raised, isQueryError]

/-- C3 witness: the parse-failure theorem applied at a concrete malformed
date filter, with a backend failure also pending (the parse error wins). -/
theorem c3_witness :
    parseDateYMD "2024-13-99-oops" = none
    ∧ ((query_data_with_date userModel [("created_at", Value.vStr "2024-13-99-oops")] tbl1
        (some bErr)).result
      = .error (.valueError ("time data " ++ "2024-13-99-oops" ++ " does not match the format"))
    ∧ raised isQueryError (query_data_with_date userModel
        [("created_at", Value.vStr "2024-13-99-oops")] tbl1 (some bErr)) = false) :=
  ⟨by decide, c3_parse_failure_uncaught userModel "2024-13-99-oops" tbl1 (some bErr) (by decide)⟩

/-- C4 counterexample: `delete_data_by_id` on a non-numeric id does fail
with a caller error distinct from `MySQLAPIDeleteError`, but the Session has
already been opened (the coercion happens inside the session scope), so the
claim's without-opening-a-Session part fails at this input. -/
theorem c4_counterexample :
    (delete_data_by_id userModel (Value.vStr "not-a-number") tbl1 none).sessionOpened = true
    ∧ raised isDeleteError (delete_data_by_id userModel (Value.vStr "not-a-number") tbl1 none)
      = false := by
  decide

/-- C4 (amended): an id value that cannot be coerced to an integer makes
`delete_data_by_id` fail with the bare ValueError — a caller error distinct
from `MySQLAPIDeleteError`, raised before any SQL runs and without rollback
or table change — but only after the Session has been opened. -/
theorem c4_coercion_failure (m : Model) (s : String) (t : Table)
    (fail : Option DatabaseErr) (h : pyIntOfString s = none) :
    delete_data_by_id m (Value.vStr s) t fail
      = { result := .error (.valueError ("invalid literal for int with base 10: " ++ s))
          table := t, sessionOpened := true, rolledBack := false } := by
  simp [delete_data_by_id, coerceId, h]

/-- C4 witness: the coercion-failure theorem applied at a concrete
non-numeric id, with a backend failure pending (never reached). -/
theorem c4_witness :
    pyIntOfString "not-a-number" = none
    ∧ delete_data_by_id userModel (Value.vStr "not-a-number") tbl1 (some bErr)
      = { result := .error
            (.valueError ("invalid literal for int with base 10: " ++ "not-a-number"))
          table := tbl1, sessionOpened := true, rolledBack := false } :=
  ⟨by decide, c4_coercion_failure userModel "not-a-number" tbl1 (some bErr) (by decide)⟩

/-- C5 counterexample: with `values = []` the membership clause is not
skipped — the generated empty IN clause matches nothing, so the call returns
no rows even though the extra filters alone select `row1`. -/
theorem c5_counterexample :
    (query_data_by_values userModel (some "id") (some [])
      [("status", Value.vStr "x")] tbl1 none).result = .ok []
    ∧ (query_data_all userModel [("status", Value.vStr "x")] tbl1 none).result
      = .ok [row1] := by
  decide

/-- C5 (amended): `values = None` skips the membership clause, so the result
equals the rows selected by the extra filters alone (as `query_data_all`
returns them); `values = []` keeps the clause as an empty IN list, which
matches no rows, so the result is empty regardless of the extra filters. -/
theorem c5_membership_skip (m : Model) (field : String) (filters : Record) (t : Table) :
    (query_data_by_values m (some field) none filters t none).result
      = (query_data_all m filters t none).result
    ∧ (query_data_by_values m (some field) (some []) filters t none).result = .ok [] := by
  constructor
  · by_cases hf : filters.isEmpty
    · rw [List.isEmpty_iff] at hf
      subst hf
      simp [query_data_by_values, query_data_all, filter_matchesFilters_nil]
    · simp [query_data_by_values, query_data_all, hf]
  · by_cases hf : filters.isEmpty <;>
      simp [query_data_by_values, hf]

/-- Mapping a conditional rewrite over a list is the identity when no
element satisfies the condition. -/
theorem map_ite_eq_self {α : Type} {p : α → Bool} {f : α → α} {l : List α}
    (h : ∀ a ∈ l, p a = false) :
    l.map (fun a => if p a then f a else a) = l := by
  induction l with
  | nil => rfl
  | cons x xs ih =>
    simp [h x (by simp), ih fun a ha => h a (by simp [ha])]

/-- C6: a zero-row match is never an error — `update_data` on a key value
matching no rows succeeds and leaves the table unchanged, `query_data_one`
on filters matching no rows returns `none` rather than raising, and
`delete_data_by_id` on an absent id is a no-op success. -/
theorem c6_zero_match_no_error (m : Model) (key : String) (kv : Value)
    (upd : Record) (filters : Record) (rid : Int) (t : Table)
    (hupd : t.rows.filter (fun r => decide (r.lookup key = some kv)) = [])
    (hq : t.rows.filter (matchesFilters filters) = [])
    (hdel : t.rows.find? (fun r => decide (r.lookup "id" = some (Value.vInt rid))) = none) :
    update_data m key kv upd t none =
      { result := .ok (), table := t, sessionOpened := true, rolledBack := false }
    ∧ query_data_one m filters t none =
      { result := .ok none, table := t, sessionOpened := true, rolledBack := false }
    ∧ delete_data_by_id m (Value.vInt rid) t none =
      { result := .ok (), table := t, sessionOpened := true, rolledBack := false } := by
  refine ⟨?_, ?_, ?_⟩
  · rw [List.filter_eq_nil_iff] at hupd
    simp only [update_data]
    rw [map_ite_eq_self fun r hr => by simpa using hupd r hr]
  · simp [query_data_one, hq]
  · simp [delete_data_by_id, coerceId, hdel]

/-- C6 witness: the zero-match theorem applied at a concrete one-row table
where the key value, the filters and the id all match nothing. -/
theorem c6_witness :
    tbl1.rows.filter (fun r => decide (r.lookup "status" = some (Value.vStr "zzz"))) = []
    ∧ tbl1.rows.filter (matchesFilters [("status", Value.vStr "zzz")]) = []
    ∧ tbl1.rows.find? (fun r => decide (r.lookup "id" = some (Value.vInt 99))) = none
    ∧ update_data userModel "status" (Value.vStr "zzz") [("status", Value.vStr "w")] tbl1 none =
      { result := .ok (), table := tbl1, sessionOpened := true, rolledBack := false }
    ∧ query_data_one userModel [("status", Value.vStr "zzz")] tbl1 none =
      { result := .ok none, table := tbl1, sessionOpened := true, rolledBack := false }
    ∧ delete_data_by_id userModel (Value.vInt 99) tbl1 none =
      { result := .ok (), table := tbl1, sessionOpened := true, rolledBack := false } := by
  have h := c6_zero_match_no_error userModel "status" (Value.vStr "zzz")
    [("status", Value.vStr "w")] [("status", Value.vStr "zzz")] 99 tbl1
    (by decide) (by decide) (by decide)
  exact ⟨by decide, by decide, by decide, h.1, h.2.1, h.2.2⟩

/-- C7: `query_data_page` returns exactly the slice of the filtered result
set from `(page - 1) * page_size` of length at most `page_size`, in
backend-default order — its length is the slice length and each index reads
through to the filtered rows at the offset — and in particular page 2 of
size 10 over a 25-row table is exactly rows 11 to 20. -/
theorem c7_page_slice (m : Model) (page pageSize i : Nat) (filters : Record) (t : Table)
    (_hp : 1 ≤ page) (_hs : 1 ≤ pageSize) :
    (okRows (query_data_page m page pageSize filters t none)).length
      = min pageSize ((t.rows.filter (matchesFilters filters)).length - (page - 1) * pageSize)
    ∧ (okRows (query_data_page m page pageSize filters t none))[i]?
      = (if i < pageSize
          then (t.rows.filter (matchesFilters filters))[(page - 1) * pageSize + i]?
          else none)
    ∧ (query_data_page userModel 2 10 [] tbl25 none).result = .ok rows11to20 := by
  refine ⟨?_, ?_, by decide⟩
  · simp [query_data_page, okRows]
  · simp only [query_data_page, okRows]
    rw [List.getElem?_take, List.getElem?_drop]

/-- C7 witness: the page-slice theorem applied at page 2, size 10, index 3
over the concrete 25-row table. -/
theorem c7_witness :
    1 ≤ 2 ∧ 1 ≤ 10
    ∧ ((okRows (query_data_page userModel 2 10 [] tbl25 none)).length
        = min 10 ((tbl25.rows.filter (matchesFilters [])).length - (2 - 1) * 10)
      ∧ (okRows (query_data_page userModel 2 10 [] tbl25 none))[3]?
        = (if 3 < 10
            then (tbl25.rows.filter (matchesFilters []))[(2 - 1) * 10 + 3]?
            else none)
      ∧ (query_data_page userModel 2 10 [] tbl25 none).result = .ok rows11to20) :=
  ⟨by decide, by decide, c7_page_slice userModel 2 10 3 [] tbl25 (by decide) (by decide)⟩

/-- C8: `delete_all_data` empties the table and resets the auto-increment
counter to 1 in its single committed session, after which `query_data_all`
returns no rows and the next `add_data` inserts a row that receives id 1. -/
theorem c8_delete_all (m : Model) (t : Table) (data : Record)
    (hdata : validInstance m data = true) (hnoid : data.lookup "id" = none) :
    delete_all_data m t none =
      { result := .ok (), table := { rows := [], autoInc := 1 }
        sessionOpened := true, rolledBack := false }
    ∧ (query_data_all m [] (delete_all_data m t none).table none).result = .ok []
    ∧ (add_data m data (delete_all_data m t none).table none).table.rows
        = [("id", Value.vInt 1) :: data] := by
  refine ⟨rfl, by simp [query_data_all, delete_all_data], ?_⟩
  simp [add_data, hdata, delete_all_data, withId, hnoid]

/-- C8 witness: the delete-all theorem applied at the concrete one-row table
and a fresh insert payload without an id. -/
theorem c8_witness :
    validInstance userModel [("status", Value.vStr "fresh")] = true
    ∧ List.lookup "id" [("status", Value.vStr "fresh")] = none
    ∧ (delete_all_data userModel tbl1 none =
        { result := .ok (), table := { rows := [], autoInc := 1 }
          sessionOpened := true, rolledBack := false }
      ∧ (query_data_all userModel [] (delete_all_data userModel tbl1 none).table none).result
          = .ok []
      ∧ (add_data userModel [("status", Value.vStr "fresh")]
          (delete_all_data userModel tbl1 none).table none).table.rows
          = [("id", Value.vInt 1) :: [("status", Value.vStr "fresh")]]) :=
  ⟨by decide, by decide,
    c8_delete_all userModel tbl1 [("status", Value.vStr "fresh")] (by decide) (by decide)⟩

/-- C9 counterexample: `event_date` is a date-typed column of its model and
the stored row's `event_date` falls on the filtered calendar day, yet
`query_data_with_date` returns no rows for it — the date-equality treatment
is keyed on the literal filter name `created_at`, not on the column's type,
so the claim as stated fails at this input. -/
theorem c9_counterexample :
    eventModel.columns.lookup "event_date" = some ColType.tDateTime
    ∧ eventRow.lookup "event_date"
        = some (Value.vDateTime
            { date := { year := 2024, month := 1, day := 15 }, secondsOfDay := 36000 })
    ∧ parseDateYMD "2024-01-15" = some { year := 2024, month := 1, day := 15 }
    ∧ eventRow ∈ eventTbl.rows
    ∧ (query_data_with_date eventModel [("event_date", Value.vStr "2024-01-15")] eventTbl
        none).result = .ok [] := by
  decide

/-- C9 (amended): only the filter literally named `created_at` is compared
by calendar-date equality (time-of-day ignored) after parsing the value from
YYYY-MM-DD text; every other filter is exact-match regardless of the
column's declared type.  In particular a `created_at` filter matches a row
exactly when the row's `created_at` falls on the parsed calendar day. -/
theorem c9_date_filter_behavior (m : Model) (s : String) (d : Date) (name : String)
    (v : Value) (t : Table) (r : Record) (dt : DateTime)
    (hparse : parseDateYMD s = some d) (hname : name ≠ "created_at")
    (hr : r ∈ t.rows) (hdt : r.lookup "created_at" = some (Value.vDateTime dt)) :
    (r ∈ okRows (query_data_with_date m [("created_at", Value.vStr s)] t none)
      ↔ dt.date = d)
    ∧ (r ∈ okRows (query_data_with_date m [(name, v)] t none)
      ↔ r.lookup name = some v) := by
  constructor
  · simp [query_data_with_date, compileDateFilters, hparse, okRows, List.mem_filter,
      matchesDFilter, hdt, hr, Except.map]
  · simp [query_data_with_date, compileDateFilters, hname, okRows, List.mem_filter,
      matchesDFilter, hr, Except.map]

/-- C9 witness: the date-filter theorem applied at the concrete row whose
`created_at` is 2024-01-15 10:20:30, with the filter text 2024-01-15 and a
non-date filter on `status`. -/
theorem c9_witness :
    (catRow ∈ okRows (query_data_with_date userModel
        [("created_at", Value.vStr "2024-01-15")] catTbl none)
      ↔ ({ date := { year := 2024, month := 1, day := 15 }, secondsOfDay := 37230 }
          : DateTime).date = { year := 2024, month := 1, day := 15 })
    ∧ (catRow ∈ okRows (query_data_with_date userModel
        [("status", Value.vStr "x")] catTbl none)
      ↔ catRow.lookup "status" = some (Value.vStr "x")) :=
  c9_date_filter_behavior userModel "2024-01-15" { year := 2024, month := 1, day := 15 }
    "status" (Value.vStr "x") catTbl catRow
    { date := { year := 2024, month := 1, day := 15 }, secondsOfDay := 37230 }
    (by decide) (by decide) (by decide) (by decide)

/-- C10: a mutating-operation failure that is not a backend DatabaseError —
the TypeError from constructing an instance with an unknown column in
`add_data` and `add_data_multiple`, the ValueError from the id coercion in
`delete_data_by_id` — propagates to the caller unwrapped, outside the
facade's error taxonomy, with no rollback and no table change; and on every
mutating operation a rollback only ever accompanies a typed facade error. -/
theorem c10_raw_errors_unwrapped (m : Model) (data : Record) (items : List Record)
    (key col : String) (kv nv : Value) (upd : Record) (t : Table)
    (fail : Option DatabaseErr) (s : String)
    (hdata : validInstance m data = false)
    (hitems : items.all (validInstance m) = false)
    (hs : pyIntOfString s = none) :
    add_data m data t fail =
      { result := .error (.typeError ("invalid keyword argument for " ++ m.name))
        table := t, sessionOpened := true, rolledBack := false }
    ∧ add_data_multiple m items t fail =
      { result := .error (.typeError ("invalid keyword argument for " ++ m.name))
        table := t, sessionOpened := true, rolledBack := false }
    ∧ delete_data_by_id m (Value.vStr s) t fail =
      { result := .error (.valueError ("invalid literal for int with base 10: " ++ s))
        table := t, sessionOpened := true, rolledBack := false }
    ∧ raised isFacadeError (add_data m data t fail) = false
    ∧ raised isFacadeError (add_data_multiple m items t fail) = false
    ∧ raised isFacadeError (delete_data_by_id m (Value.vStr s) t fail) = false
    ∧ ((update_data m key kv upd t fail).rolledBack = true
        → raised isFacadeError (update_data m key kv upd t fail) = true)
    ∧ ((update_column_values m col nv t fail).rolledBack = true
        → raised isFacadeError (update_column_values m col nv t fail) = true)
    ∧ ((delete_all_data m t fail).rolledBack = true
        → raised isFacadeError (delete_all_data m t fail) = true) := by
  refine ⟨?_, ?_, ?_, ?_, ?_, ?_, ?_, ?_, ?_⟩
  · simp [add_data, hdata]
  · simp [add_data_multiple, hitems]
  · simp [delete_data_by_id, coerceId, hs]
  · simp [add_data, hdata, raised, isFacadeError]
  · simp [add_data_multiple, hitems, raised, isFacadeError]
  · simp [delete_data_by_id, coerceId, hs, raised, isFacadeError]
  · cases fail <;> simp [update_data, raised, isFacadeError]
  · cases fail <;> simp [update_column_values, raised, isFacadeError]
  · cases fail <;> simp [delete_all_data, raised, isFacadeError]

/-- C10 witness: the raw-error theorem applied at a concrete unknown-column
payload and a concrete non-numeric id, with a backend failure also pending
(the raw error still wins on those paths). -/
theorem c10_witness :
    validInstance userModel [("bogus", Value.vStr "x")] = false
    ∧ [[("bogus", Value.vStr "x")]].all (validInstance userModel) = false
    ∧ pyIntOfString "12ab" = none
    ∧ add_data userModel [("bogus", Value.vStr "x")] tbl1 (some bErr) =
      { result := .error (.typeError ("invalid keyword argument for " ++ userModel.name))
        table := tbl1, sessionOpened := true, rolledBack := false }
    ∧ delete_data_by_id userModel (Value.vStr "12ab") tbl1 (some bErr) =
      { result := .error (.valueError ("invalid literal for int with base 10: " ++ "12ab"))
        table := tbl1, sessionOpened := true, rolledBack := false } := by
  have h := c10_raw_errors_unwrapped userModel [("bogus", Value.vStr "x")]
    [[("bogus", Value.vStr "x")]] "status" "status" (Value.vStr "a") (Value.vStr "b")
    [("status", Value.vStr "c")] tbl1 (some bErr) "12ab"
    (by decide) (by decide) (by decide)
  exact ⟨by decide, by decide, by decide, h.1, h.2.2.1⟩

end MysqlApi
